import Mathlib

/-
Verification of the hypertension-assessment decision logic in `src/app.py`.
Each Python helper (and each inline rule cascade of the Streamlit pages) is
embedded as a pure Lean function over integers, rationals, booleans and
strings; machine behaviour of Python `int` is arbitrary precision, so `Int`
models it directly.  Python's `"x" in s` substring test is modelled by
`strContains`.
-/

/-- Patient sex as offered by the form's selectbox ["Male", "Female"]. -/
inductive Sex where
  | male
  | female
deriving DecidableEq, Repr

/-- Python's substring test `needle in hay` on strings. -/
def strContains (hay needle : String) : Bool :=
  decide (needle.data <:+: hay.data)

/-- `classify_bp(systolic, diastolic)` from src/app.py lines 75-87:
sequential if/elif cascade returning (category, severity). -/
def classify_bp (systolic diastolic : Int) : String × String :=
  if systolic < 120 ∧ diastolic < 80 then ("Normal", "low")
  else if systolic < 130 ∧ diastolic < 80 then ("Elevated", "moderate")
  else if (130 ≤ systolic ∧ systolic ≤ 139) ∨ (80 ≤ diastolic ∧ diastolic ≤ 89) then
    ("Stage 1 Hypertension", "moderate")
  else if systolic ≥ 140 ∨ diastolic ≥ 90 then ("Stage 2 Hypertension", "high")
  else if systolic ≥ 180 ∨ diastolic ≥ 120 then ("Hypertensive Crisis - EMERGENCY", "high")
  else ("Unknown", "moderate")

/-- The fields of the patient-data dict that the scoring and advice code
reads.  BMI is a Python float compared against whole-number thresholds; it is
embedded as a rational. -/
structure PatientData where
  age : Int
  bmi : ℚ
  diabetes : Bool
  cad : Bool
  ckd : Bool
  smoking : Bool
  systolic : Int
  diastolic : Int
  sex : Sex
deriving DecidableEq, Repr

/-- `calculate_risk_score(data)` from src/app.py lines 89-127: a running
sum over age band, BMI band, four comorbidity flags, and the BP category
re-derived via `classify_bp` (substring tests on the category string). -/
def calculate_risk_score (data : PatientData) : Int :=
  let score : Int := 0
  let score := score +
    (if data.age > 65 then 3 else if data.age > 55 then 2 else if data.age > 45 then 1 else 0)
  let score := score + (if data.bmi ≥ 30 then 2 else if data.bmi ≥ 25 then 1 else 0)
  let score := score + (if data.diabetes then 3 else 0)
  let score := score + (if data.cad then 3 else 0)
  let score := score + (if data.ckd then 2 else 0)
  let score := score + (if data.smoking then 2 else 0)
  let bp_class := (classify_bp data.systolic data.diastolic).1
  let score := score +
    (if strContains bp_class "Crisis" then 5
     else if strContains bp_class "Stage 2" then 3
     else if strContains bp_class "Stage 1" then 2
     else 0)
  score

/-- `get_risk_category(score)` from src/app.py lines 129-138. -/
def get_risk_category (score : Int) : String × String :=
  if score ≤ 3 then ("Low Risk", "low")
  else if score ≤ 7 then ("Moderate Risk", "moderate")
  else if score ≤ 12 then ("High Risk", "high")
  else ("Very High Risk", "high")

/-- The Target Blood Pressure cascade of the Treatment Options page,
src/app.py lines 986-1003: first-match if/elif/else on diabetes/ckd and age. -/
def target_bp (diabetes ckd : Bool) (age : Int) : Int × Int :=
  if diabetes || ckd then (130, 80)
  else if age ≥ 65 then (140, 90)
  else (130, 80)

/-- The Recommended Initial Therapy list of the Treatment Options page,
src/app.py lines 876-891: three additive appends, then the fallback when the
list stayed empty. -/
def medication_recommendations (diabetes ckd : Bool) (age : Int) (sex : Sex)
    (systolic diastolic : Int) : List String :=
  let recommendations : List String := []
  let recommendations :=
    if diabetes || ckd then
      recommendations ++ ["**ACE Inhibitor or ARB** (renal/cardiac protection)"]
    else recommendations
  let recommendations :=
    if age > 55 ∨ sex = Sex.male then
      recommendations ++ ["**Calcium Channel Blocker** (effective in older adults)"]
    else recommendations
  let recommendations :=
    if systolic ≥ 160 ∨ diastolic ≥ 100 then
      recommendations ++ ["**Consider dual therapy** (ACEi/ARB + CCB or Diuretic)"]
    else recommendations
  if recommendations = [] then ["**Start with any first-line agent**"] else recommendations

/-- Outcome of the Pharmacological Treatment cascade: the headline message
and the detail lines written beneath it. -/
structure PharmAdvice where
  headline : String
  lines : List String
deriving DecidableEq, Repr

/-- The Pharmacological Treatment cascade of the Treatment Options page,
src/app.py lines 646-661: three BP bands, first match wins; inside the first
band the detail lines split on diabetes/ckd only. -/
def pharmacological_treatment (systolic diastolic : Int) (diabetes ckd : Bool) :
    PharmAdvice :=
  if systolic ≥ 140 ∨ diastolic ≥ 90 then
    if diabetes || ckd then
      ⟨"**Medication recommended** - Stage 2 Hypertension",
       ["ACE Inhibitor or ARB (first choice for renal protection)",
        "May add CCB or thiazide diuretic"]⟩
    else
      ⟨"**Medication recommended** - Stage 2 Hypertension",
       ["Any first-line agent (ACEi, ARB, CCB, or thiazide)",
        "Consider dual therapy if BP ≥160/100"]⟩
  else if systolic ≥ 130 ∨ diastolic ≥ 80 then
    ⟨"**Lifestyle modifications first, consider medication if:**",
     ["High cardiovascular risk",
      "Target organ damage present",
      "BP not controlled after 3-6 months of lifestyle changes"]⟩
  else
    ⟨"**Lifestyle modifications sufficient at this time**", []⟩

/-- The intensive follow-up plan written for high-risk patients. -/
def intensive_monitoring : String × List String :=
  ("**High/Very High Risk Patient** - Intensive monitoring required",
   ["Week 2: Check BP, review medication tolerance",
    "Week 4: BP check, labs (Creatinine, K+, Na+)",
    "Month 2: BP check, assess for side effects",
    "Month 3: Comprehensive assessment, adjust therapy",
    "Then: Every 1-2 months until target achieved",
    "Maintenance: Every 3-4 months once stable"])

/-- The standard follow-up plan written when the risk category does not
contain "High". -/
def standard_monitoring : String × List String :=
  ("**Low/Moderate Risk Patient** - Standard monitoring",
   ["Week 4: BP check, initial labs",
    "Month 2: BP check, assess tolerance",
    "Month 3: Comprehensive review",
    "Then: Every 2-3 months until target achieved",
    "Maintenance: Every 4-6 months once stable"])

/-- The Follow-up Schedule branch of the monitoring page, src/app.py lines
1041-1055: Python `"Very High" in risk_category or "High" in risk_category`
selects the intensive plan, else the standard plan. -/
def followup_schedule (risk_category : String) : String × List String :=
  if strContains risk_category "Very High" || strContains risk_category "High" then
    intensive_monitoring
  else
    standard_monitoring

/-- The secondary-hypertension clue checkboxes of the assessment form,
src/app.py lines 303-324. -/
structure SecondaryClues where
  resistant_htn : Bool
  acute_rise : Bool
  malignant_htn : Bool
  early_onset : Bool
  onset_before_puberty : Bool
  abdominal_bruit : Bool
  asymmetric_kidneys : Bool
  elevated_creatinine : Bool
  abnormal_urinalysis : Bool
  hypokalemia : Bool
  cushings_features : Bool
  pheo_triad : Bool
deriving DecidableEq, Repr

/-- The secondary-screening action of the assessment summary, src/app.py
lines 427-428: `if resistant_htn or early_onset or malignant_htn`. -/
def secondary_screening_recommended (c : SecondaryClues) : Bool :=
  c.resistant_htn || c.early_onset || c.malignant_htn

/-- C1, counterexample: at systolic 185, diastolic 85 the reading is in crisis
range (systolic ≥ 180), yet `classify_bp` returns Stage 1 Hypertension with
severity moderate — not Stage 2 with severity high as the claim states — because
the Stage-1 rule (80 ≤ diastolic ≤ 89) matches first. -/
theorem classify_bp_crisis_range_stage1_cex :
    (185 : Int) ≥ 180 ∧
    classify_bp 185 85 ≠ ("Stage 2 Hypertension", "high") ∧
    classify_bp 185 85 = ("Stage 1 Hypertension", "moderate") := by decide

/-- C1, amended: for every input with systolic ≥ 180 or diastolic ≥ 120,
`classify_bp` never returns the Crisis category; it returns Stage 2
Hypertension with severity high unless the earlier Stage-1 rule
(130 ≤ systolic ≤ 139 or 80 ≤ diastolic ≤ 89) intercepts, in which case it
returns Stage 1 Hypertension with severity moderate. -/
theorem classify_bp_crisis_range_never_crisis (s d : Int) (h : s ≥ 180 ∨ d ≥ 120) :
    classify_bp s d ≠ ("Hypertensive Crisis - EMERGENCY", "high") ∧
    ((130 ≤ s ∧ s ≤ 139) ∨ (80 ≤ d ∧ d ≤ 89) →
      classify_bp s d = ("Stage 1 Hypertension", "moderate")) ∧
    (¬((130 ≤ s ∧ s ≤ 139) ∨ (80 ≤ d ∧ d ≤ 89)) →
      classify_bp s d = ("Stage 2 Hypertension", "high")) := by
  unfold classify_bp
  split_ifs with h1 h2 h3 h4
  · omega
  · omega
  · exact ⟨by decide, fun _ => rfl, fun hc => absurd h3 hc⟩
  · exact ⟨by decide, fun hc => absurd hc h3, fun _ => rfl⟩
  all_goals omega

/-- C1, witness for the amended theorem at the spec's example reading 190/130:
crisis range, Stage-1 rule does not match, so Stage 2 is returned. -/
theorem classify_bp_crisis_range_never_crisis_witness :
    classify_bp 190 130 = ("Stage 2 Hypertension", "high") :=
  (classify_bp_crisis_range_never_crisis 190 130 (Or.inl (by decide))).2.2 (by decide)

/-- C2: for every pair of integer inputs, `classify_bp` returns one of the five
named category/severity pairs and never the ("Unknown", "moderate") fallback:
the first four rules already cover all integers. -/
theorem classify_bp_never_unknown (s d : Int) :
    classify_bp s d ≠ ("Unknown", "moderate") ∧
    classify_bp s d ∈ [("Normal", "low"), ("Elevated", "moderate"),
      ("Stage 1 Hypertension", "moderate"), ("Stage 2 Hypertension", "high"),
      ("Hypertensive Crisis - EMERGENCY", "high")] := by
  unfold classify_bp
  split_ifs with h1 h2 h3 h4 h5
  · exact ⟨by decide, by decide⟩
  · exact ⟨by decide, by decide⟩
  · exact ⟨by decide, by decide⟩
  · exact ⟨by decide, by decide⟩
  · omega
  · omega

/-- C3: the spec's example scenario — age 70, BMI 31, diabetes, no CAD, no CKD,
smoker, BP 150/95 — classifies as Stage 2 Hypertension (high), scores
3 + 2 + 3 + 2 + 3 = 13, and score 13 maps to Very High Risk (high). -/
theorem example_scenario_age70 :
    classify_bp 150 95 = ("Stage 2 Hypertension", "high") ∧
    calculate_risk_score ⟨70, 31, true, false, false, true, 150, 95, Sex.female⟩ = 13 ∧
    get_risk_category 13 = ("Very High Risk", "high") := by decide

/-- C4: the Recommended Initial Therapy list is exactly the single fallback
entry "Start with any first-line agent" if and only if no diabetes, no CKD,
age ≤ 55, female sex, systolic < 160 and diastolic < 100; equivalently, the
fallback entry appears in the list only under those conditions, so whenever
any of the three additive rules fires the fallback is absent. -/
theorem medication_fallback_iff (diabetes ckd : Bool) (age : Int) (sex : Sex)
    (s d : Int) :
    (medication_recommendations diabetes ckd age sex s d =
        ["**Start with any first-line agent**"] ↔
      diabetes = false ∧ ckd = false ∧ age ≤ 55 ∧ sex = Sex.female ∧
        s < 160 ∧ d < 100) ∧
    ("**Start with any first-line agent**" ∈
        medication_recommendations diabetes ckd age sex s d ↔
      diabetes = false ∧ ckd = false ∧ age ≤ 55 ∧ sex = Sex.female ∧
        s < 160 ∧ d < 100) := by
  cases diabetes <;> cases ckd <;> cases sex <;>
    simp only [medication_recommendations] <;>
    split_ifs <;> simp_all <;> intros <;> omega

/-- C4, witness: a 40-year-old female with no diabetes, no CKD, BP 120/80
receives exactly the fallback recommendation. -/
theorem medication_fallback_iff_witness :
    medication_recommendations false false 40 Sex.female 120 80 =
      ["**Start with any first-line agent**"] :=
  (medication_fallback_iff false false 40 Sex.female 120 80).1.mpr
    ⟨rfl, rfl, by decide, rfl, by decide, by decide⟩

/-- C5: `get_risk_category` maps score ≤ 3 to Low Risk (low), 4..7 to Moderate
Risk (moderate), 8..12 to High Risk (high) and ≥ 13 to Very High Risk (high);
the bands are contiguous and exhaustive. -/
theorem get_risk_category_bands (score : Int) :
    (score ≤ 3 → get_risk_category score = ("Low Risk", "low")) ∧
    (4 ≤ score → score ≤ 7 → get_risk_category score = ("Moderate Risk", "moderate")) ∧
    (8 ≤ score → score ≤ 12 → get_risk_category score = ("High Risk", "high")) ∧
    (13 ≤ score → get_risk_category score = ("Very High Risk", "high")) := by
  unfold get_risk_category
  split_ifs <;> refine ⟨?_, ?_, ?_, ?_⟩ <;> intros <;> first | rfl | (exfalso; omega)

/-- C5, witness at the band boundary score = 7: Moderate Risk. -/
theorem get_risk_category_bands_witness :
    get_risk_category 7 = ("Moderate Risk", "moderate") :=
  (get_risk_category_bands 7).2.1 (by decide) (by decide)

/-- The age contribution of `calculate_risk_score`. -/
def age_points (age : Int) : Int :=
  if age > 65 then 3 else if age > 55 then 2 else if age > 45 then 1 else 0

/-- The BMI contribution of `calculate_risk_score`. -/
def bmi_points (bmi : ℚ) : Int :=
  if bmi ≥ 30 then 2 else if bmi ≥ 25 then 1 else 0

/-- The BP-category contribution of `calculate_risk_score`. -/
def bp_points (systolic diastolic : Int) : Int :=
  let bp_class := (classify_bp systolic diastolic).1
  if strContains bp_class "Crisis" then 5
  else if strContains bp_class "Stage 2" then 3
  else if strContains bp_class "Stage 1" then 2
  else 0

/-- The running sum of `calculate_risk_score` is the sum of its independent
contributions. -/
theorem calculate_risk_score_decomp (p : PatientData) :
    calculate_risk_score p =
      age_points p.age + bmi_points p.bmi + (if p.diabetes then 3 else 0) +
        (if p.cad then 3 else 0) + (if p.ckd then 2 else 0) +
        (if p.smoking then 2 else 0) + bp_points p.systolic p.diastolic := by
  simp only [calculate_risk_score, age_points, bmi_points, bp_points, zero_add]

/-- `age_points` is non-decreasing. -/
theorem age_points_mono {a a' : Int} (h : a ≤ a') : age_points a ≤ age_points a' := by
  unfold age_points
  split_ifs <;> omega

/-- `bmi_points` is non-decreasing. -/
theorem bmi_points_mono {b b' : ℚ} (h : b ≤ b') : bmi_points b ≤ bmi_points b' := by
  unfold bmi_points
  split_ifs <;> linarith

/-- C6, counterexample: raising systolic from 120 to 135 at diastolic 125
(all other factors neutral) lowers the score from 3 to 2, because the Stage-1
rule intercepts the higher reading and the BP contribution drops from +3 to
+2 — so `calculate_risk_score` is not monotonic in systolic. -/
theorem calculate_risk_score_systolic_cex :
    (120 : Int) ≤ 135 ∧
    calculate_risk_score ⟨0, 0, false, false, false, false, 135, 125, Sex.female⟩ <
      calculate_risk_score ⟨0, 0, false, false, false, false, 120, 125, Sex.female⟩ := by
  decide

/-- C6, amended: `calculate_risk_score` is monotonic non-decreasing in age, in
BMI, and in flipping each of the diabetes/cad/ckd/smoking flags from false to
true, all other fields held fixed; it is not monotonic in systolic or
diastolic, where a higher reading can be intercepted by the Stage-1 rule and
lower the BP contribution (witnessed at 120/125 vs 135/125 and at 185/75 vs
185/85). -/
theorem calculate_risk_score_mono (p : PatientData) :
    (∀ a : Int, p.age ≤ a →
      calculate_risk_score p ≤ calculate_risk_score {p with age := a}) ∧
    (∀ b : ℚ, p.bmi ≤ b →
      calculate_risk_score p ≤ calculate_risk_score {p with bmi := b}) ∧
    calculate_risk_score {p with diabetes := false} ≤
      calculate_risk_score {p with diabetes := true} ∧
    calculate_risk_score {p with cad := false} ≤
      calculate_risk_score {p with cad := true} ∧
    calculate_risk_score {p with ckd := false} ≤
      calculate_risk_score {p with ckd := true} ∧
    calculate_risk_score {p with smoking := false} ≤
      calculate_risk_score {p with smoking := true} ∧
    calculate_risk_score ⟨0, 0, false, false, false, false, 135, 125, Sex.female⟩ <
      calculate_risk_score ⟨0, 0, false, false, false, false, 120, 125, Sex.female⟩ ∧
    calculate_risk_score ⟨0, 0, false, false, false, false, 185, 85, Sex.female⟩ <
      calculate_risk_score ⟨0, 0, false, false, false, false, 185, 75, Sex.female⟩ := by
  refine ⟨?_, ?_, ?_, ?_, ?_, ?_, by decide, by decide⟩
  · intro a h
    rw [calculate_risk_score_decomp, calculate_risk_score_decomp]
    simp only
    have := age_points_mono h
    omega
  · intro b h
    rw [calculate_risk_score_decomp, calculate_risk_score_decomp]
    simp only
    have := bmi_points_mono h
    omega
  all_goals
    rw [calculate_risk_score_decomp, calculate_risk_score_decomp]
    simp only [if_true, if_false]
    omega

/-- C6, witness for the amended theorem: raising age from 50 to 60 with all
else fixed does not decrease the score. -/
theorem calculate_risk_score_mono_witness :
    calculate_risk_score ⟨50, 24, false, false, false, false, 120, 70, Sex.female⟩ ≤
      calculate_risk_score ⟨60, 24, false, false, false, false, 120, 70, Sex.female⟩ :=
  (calculate_risk_score_mono
    ⟨50, 24, false, false, false, false, 120, 70, Sex.female⟩).1 60 (by decide)

/-- C7, counterexample: a diabetic patient at 170/105 satisfies systolic ≥ 160,
yet the medication-recommended branch emits only the renal-protection lines —
no emitted line mentions dual therapy — because the cascade never tests
BP ≥ 160/100; the dual-therapy text is a static line of the non-diabetic
branch only. -/
theorem pharmacological_treatment_dual_cex :
    (170 : Int) ≥ 160 ∧
    (pharmacological_treatment 170 105 true false).lines =
      ["ACE Inhibitor or ARB (first choice for renal protection)",
       "May add CCB or thiazide diuretic"] ∧
    ((pharmacological_treatment 170 105 true false).lines.all
      (fun l => !strContains l "dual therapy")) = true := by decide

/-- C7, amended: the pharmacologic-urgency rule is a three-band first-match
classification: systolic ≥ 140 or diastolic ≥ 90 gives the
medication-recommended outcome, whose detail lines are the ACE-inhibitor/ARB
renal-protection pair when diabetes or ckd and otherwise the any-first-line
pair including the static advisory "Consider dual therapy if BP ≥160/100" —
that advisory appears exactly when the first band fires without diabetes/ckd,
regardless of whether systolic ≥ 160 or diastolic ≥ 100; otherwise systolic in
[130,140) or diastolic in [80,90) gives the lifestyle-first outcome; otherwise
the lifestyle-sufficient outcome. -/
theorem pharmacological_treatment_bands (s d : Int) (diabetes ckd : Bool) :
    (s ≥ 140 ∨ d ≥ 90 →
      pharmacological_treatment s d diabetes ckd =
        ⟨"**Medication recommended** - Stage 2 Hypertension",
         if diabetes || ckd then
           ["ACE Inhibitor or ARB (first choice for renal protection)",
            "May add CCB or thiazide diuretic"]
         else
           ["Any first-line agent (ACEi, ARB, CCB, or thiazide)",
            "Consider dual therapy if BP ≥160/100"]⟩) ∧
    ("Consider dual therapy if BP ≥160/100" ∈
        (pharmacological_treatment s d diabetes ckd).lines ↔
      (s ≥ 140 ∨ d ≥ 90) ∧ (diabetes || ckd) = false) ∧
    (s < 140 ∧ d < 90 → (130 ≤ s ∧ s < 140) ∨ (80 ≤ d ∧ d < 90) →
      pharmacological_treatment s d diabetes ckd =
        ⟨"**Lifestyle modifications first, consider medication if:**",
         ["High cardiovascular risk",
          "Target organ damage present",
          "BP not controlled after 3-6 months of lifestyle changes"]⟩) ∧
    (s < 130 ∧ d < 80 →
      pharmacological_treatment s d diabetes ckd =
        ⟨"**Lifestyle modifications sufficient at this time**", []⟩) := by
  unfold pharmacological_treatment
  cases diabetes <;> cases ckd <;> split_ifs <;>
    refine ⟨?_, ?_, ?_, ?_⟩ <;> intros <;> simp_all <;> omega

/-- C7, witness for the amended theorem: a non-diabetic at 150/95 is in the
first band and receives the any-first-line pair with the static dual-therapy
advisory. -/
theorem pharmacological_treatment_bands_witness :
    pharmacological_treatment 150 95 false false =
      ⟨"**Medication recommended** - Stage 2 Hypertension",
       ["Any first-line agent (ACEi, ARB, CCB, or thiazide)",
        "Consider dual therapy if BP ≥160/100"]⟩ :=
  (pharmacological_treatment_bands 150 95 false false).1 (Or.inl (by decide))

/-- C8: the target-BP cascade returns (130, 80) whenever diabetes or ckd is
true, regardless of age; otherwise (140, 90) when age ≥ 65; otherwise
(130, 80) — diabetes/ckd takes precedence over age. -/
theorem target_bp_rules (diabetes ckd : Bool) (age : Int) :
    ((diabetes || ckd) = true → target_bp diabetes ckd age = (130, 80)) ∧
    ((diabetes || ckd) = false → 65 ≤ age → target_bp diabetes ckd age = (140, 90)) ∧
    ((diabetes || ckd) = false → age < 65 → target_bp diabetes ckd age = (130, 80)) := by
  unfold target_bp
  cases diabetes <;> cases ckd <;> split_ifs <;>
    refine ⟨?_, ?_, ?_⟩ <;> intros <;> simp_all <;> omega

/-- C8, witness: a diabetic aged 70 gets the intensive target (130, 80), not
the elderly target. -/
theorem target_bp_rules_witness :
    target_bp true false 70 = (130, 80) :=
  (target_bp_rules true false 70).1 rfl

/-- A string containing "Very High" also contains "High", since "High" is a
substring of "Very High". -/
theorem strContains_veryHigh_high {rc : String}
    (h : strContains rc "Very High" = true) : strContains rc "High" = true := by
  unfold strContains at h ⊢
  rw [decide_eq_true_eq] at h ⊢
  exact List.IsInfix.trans (by decide) h

/-- C9: the monitoring branch selects the intensive plan if and only if the
risk-category string contains the substring "High" (the explicit "Very High"
test is redundant), and the standard plan otherwise; in particular both
"High Risk" and "Very High Risk" select the intensive plan. -/
theorem followup_schedule_high_iff (rc : String) :
    (followup_schedule rc = intensive_monitoring ↔ strContains rc "High" = true) ∧
    (followup_schedule rc = standard_monitoring ↔ strContains rc "High" = false) ∧
    followup_schedule "High Risk" = intensive_monitoring ∧
    followup_schedule "Very High Risk" = intensive_monitoring := by
  have hne : intensive_monitoring ≠ standard_monitoring := by decide
  refine ⟨?_, ?_, by decide, by decide⟩ <;>
    · unfold followup_schedule
      cases hH : strContains rc "High" with
      | true => simp [hH, hne]
      | false =>
          have hV : strContains rc "Very High" = false := by
            cases hV : strContains rc "Very High" with
            | true => rw [strContains_veryHigh_high hV] at hH; exact hH
            | false => rfl
          simp [hH, hV, hne, hne.symm]

/-- C9, witness: the category "Very High Risk" contains "High" and hence gets
the intensive plan through the main equivalence. -/
theorem followup_schedule_high_iff_witness :
    followup_schedule "Very High Risk" = intensive_monitoring :=
  (followup_schedule_high_iff "Very High Risk").1.mpr (by decide)

/-- C10: secondary-hypertension screening is recommended if and only if
resistant hypertension, early onset or malignant hypertension is flagged, and
the recommendation depends on nothing else: any two clue records agreeing on
those three flags (whatever their acute_rise and renal/renovascular or
endocrine clue flags) get the same recommendation. -/
theorem secondary_screening_iff (c : SecondaryClues) :
    (secondary_screening_recommended c = true ↔
      c.resistant_htn = true ∨ c.early_onset = true ∨ c.malignant_htn = true) ∧
    (∀ c' : SecondaryClues, c'.resistant_htn = c.resistant_htn →
      c'.early_onset = c.early_onset → c'.malignant_htn = c.malignant_htn →
      secondary_screening_recommended c' = secondary_screening_recommended c) := by
  constructor
  · simp [secondary_screening_recommended, Bool.or_eq_true, or_assoc]
  · intro c' h1 h2 h3
    simp [secondary_screening_recommended, h1, h2, h3]

/-- C10, witness: resistant hypertension alone (all other flags false)
triggers the screening recommendation. -/
theorem secondary_screening_iff_witness :
    secondary_screening_recommended
      ⟨true, false, false, false, false, false, false, false, false, false,
       false, false⟩ = true :=
  (secondary_screening_iff
    ⟨true, false, false, false, false, false, false, false, false, false,
     false, false⟩).1.mpr (Or.inl rfl)
